import Mathlib

/-!
Verification of the freshness-tracking and rebuild-coordination engine of the
maturin import hook, shallowly embedded from `src/maturin_import_hook/_building.py`
and `src/maturin_import_hook/project_importer.py`.

Modelling conventions:
* Python `float` filesystem mtimes are modelled as `ℚ` (exact arithmetic; the code
  only compares and subtracts them).
* Python `Path` values are modelled as `String`.
* Python exceptions are modelled as an `Except` result carrying a `PyErr` value whose
  constructor corresponds to the dynamic class of the raised exception.
* The `json` standard library is modelled by an inductive `Json` value type; a stored
  file is either well-formed JSON or malformed bytes (`JsonDoc`), and `json_load`
  raises `JSONDecodeError` on the latter, exactly as `json.load` does.
-/

set_option autoImplicit false

namespace MaturinImportHook

/-- A JSON value, as produced by Python's `json.load`. Objects parsed by `json.load`
have unique keys (later duplicates overwrite earlier ones during parsing). -/
inductive Json where
  | null
  | bool (b : Bool)
  | num (q : ℚ)
  | str (s : String)
  | arr (elements : List Json)
  | obj (fields : List (String × Json))

/-- The dynamic class of a raised Python exception, for the exception classes the
modelled code can raise. In the source, `MaturinError` is a subclass of
`ImportHookError` (`error.py`), but they are distinct dynamic classes;
`PyErr.kind` below returns the dynamic class. -/
inductive PyErr where
  | importHookError (msg : String)
  | maturinError (msg : String)
  | jsonDecodeError
  | typeError
deriving DecidableEq

inductive ErrKind where
  | importHookKind
  | maturinKind
  | jsonDecodeKind
  | typeKind
deriving DecidableEq

def PyErr.kind : PyErr → ErrKind
  | .importHookError _ => .importHookKind
  | .maturinError _ => .maturinKind
  | .jsonDecodeError => .jsonDecodeKind
  | .typeError => .typeKind

/-- `BuildStatus` from `_building.py`: information about the build of a project
triggered by the import hook. `build_mtime : float` is modelled as `ℚ` and
`source_path : Path` as `String`. -/
structure BuildStatus where
  build_mtime : ℚ
  source_path : String
  maturin_args : List String
  maturin_output : String
deriving DecidableEq

/-- `BuildStatus.to_json`: the dict serialized by `store_build_status`. -/
def BuildStatus.to_json (bs : BuildStatus) : Json :=
  .obj
    [("build_mtime", .num bs.build_mtime),
     ("source_path", .str bs.source_path),
     ("maturin_args", .arr (bs.maturin_args.map .str)),
     ("maturin_output", .str bs.maturin_output)]

/-- Python dict key lookup (objects parsed from JSON have unique keys; the first
match is taken). -/
def lookupField : List (String × Json) → String → Option Json
  | [], _ => none
  | (k, v) :: rest, key => if k = key then some v else lookupField rest key

def asNum : Json → Option ℚ
  | .num q => some q
  | _ => none

def asStr : Json → Option String
  | .str s => some s
  | _ => none

def decodeStrList : List Json → Option (List String)
  | [] => some []
  | j :: rest =>
    match asStr j, decodeStrList rest with
    | some s, some l => some (s :: l)
    | _, _ => none

def asStrArr : Json → Option (List String)
  | .arr xs => decodeStrList xs
  | _ => none

/-- `BuildStatus.from_json`. The Python code evaluates
`json_data["build_mtime"]`, `json_data["source_path"]`, `Path(...)`,
`json_data["maturin_args"]`, `json_data["maturin_output"]` in that order; a missing
key raises `KeyError`, which is caught and turned into `None`, while `Path(...)`
applied to a non-string raises `TypeError`, which is not caught. Indexing a
non-dict value raises `TypeError` (not caught). Python stores the remaining field
values unchecked; the Lean record is typed, so ill-typed values for the other
fields (which never arise from `to_json` output and are exercised by no claim) are
conservatively modelled as a `TypeError`. -/
def BuildStatus.from_json (j : Json) : Except PyErr (Option BuildStatus) :=
  match j with
  | .obj fields =>
    match lookupField fields "build_mtime" with
    | none => .ok none
    | some jm =>
      match lookupField fields "source_path" with
      | none => .ok none
      | some jp =>
        match asStr jp with
        | none => .error .typeError
        | some p =>
          match lookupField fields "maturin_args" with
          | none => .ok none
          | some ja =>
            match lookupField fields "maturin_output" with
            | none => .ok none
            | some jo =>
              match asNum jm, asStrArr ja, asStr jo with
              | some m, some args, some out => .ok (some ⟨m, p, args, out⟩)
              | _, _, _ => .error .typeError
  | _ => .error .typeError

/-- A stored fingerprint file: either bytes that `json.load` rejects, or a parsed
JSON value. -/
inductive JsonDoc where
  | malformed (raw : String)
  | wellFormed (j : Json)

/-- `json.load`: raises `JSONDecodeError` on content that is not valid JSON. -/
def json_load : JsonDoc → Except PyErr Json
  | .malformed _ => .error .jsonDecodeError
  | .wellFormed j => .ok j

/-- The `build_status` directory of the build cache: a flat mapping from file name
(the hashed source path) to file content. -/
def CacheDir := List (String × JsonDoc)

def lookupKey : CacheDir → String → Option JsonDoc
  | [], _ => none
  | (k, v) :: rest, key => if k = key then some v else lookupKey rest key

/-- Writing a file at a path: overwrites the existing content if present. -/
def insertKey : CacheDir → String → JsonDoc → CacheDir
  | [], key, v => [(key, v)]
  | (k, v0) :: rest, key, v =>
    if k = key then (key, v) :: rest else (k, v0) :: insertKey rest key v

/-- `_build_status_path`: the store is keyed by `sha1(bytes(source_path)).hexdigest()`.
SHA-1 is modelled as an injective function of the path (i.e. assumed collision-free),
so the key is taken to be the path itself. -/
def build_status_key (source_path : String) : String := source_path

namespace LockedBuildCache

/-- `LockedBuildCache.store_build_status`: serializes the status as JSON at the
hashed path, overwriting any previous file. -/
def store_build_status (dir : CacheDir) (build_status : BuildStatus) : CacheDir :=
  insertKey dir (build_status_key build_status.source_path) (.wellFormed build_status.to_json)

/-- `LockedBuildCache.get_build_status`: opens the hashed path and parses it.
Only `FileNotFoundError` is caught (returning `None`); an exception raised by
`json.load` or `BuildStatus.from_json` propagates. -/
def get_build_status (dir : CacheDir) (source_path : String) : Except PyErr (Option BuildStatus) :=
  match lookupKey dir (build_status_key source_path) with
  | none => .ok none
  | some doc =>
    match json_load doc with
    | .error e => .error e
    | .ok j => BuildStatus.from_json j

end LockedBuildCache

/-- An `OSError` raised by `Path.stat()`: its `repr` text and `filename` attribute,
which the source interpolates into log and error messages. -/
structure OSErr where
  errRepr : String
  filename : String
deriving DecidableEq

/-- One path passed to the freshness oracle, together with the outcome its
`.stat().st_mtime` call would have (the filesystem is an input of the model). -/
structure FileEntry where
  path : String
  stat : Except OSErr ℚ

/-- Evaluating the generator `((path, path.stat().st_mtime) for path in paths)` to
completion: `min`/`max` consume it in order, so the first entry whose `stat` raises
determines the raised `OSError`. -/
def statAll : List FileEntry → Except OSErr (List (String × ℚ))
  | [] => .ok []
  | entry :: rest =>
    match entry.stat with
    | .error e => .error e
    | .ok m =>
      match statAll rest with
      | .error e => .error e
      | .ok pairs => .ok ((entry.path, m) :: pairs)

/-- Python `min(pairs, key=itemgetter(1))`: `none` on an empty list (`ValueError`),
otherwise the first pair with minimal second component. -/
def minBySnd : List (String × ℚ) → Option (String × ℚ)
  | [] => none
  | x :: rest => some (rest.foldl (fun acc y => if y.2 < acc.2 then y else acc) x)

/-- Python `max(pairs, key=itemgetter(1))`: the first pair with maximal second
component. -/
def maxBySnd : List (String × ℚ) → Option (String × ℚ)
  | [] => none
  | x :: rest => some (rest.foldl (fun acc y => if acc.2 < y.2 then y else acc) x)

/-- `Freshness` from `_building.py`. -/
structure Freshness where
  is_fresh : Bool
  reason : String
  oldest_installed_path : Option String
  newest_source_path : Option String
deriving DecidableEq

/-- `get_installation_freshness` from `_building.py`. The float literal `5e-3` is
the rational `5 / 1000`. An empty `installed_paths` iterable makes `min` raise
`ValueError` (caught: "no installed files found"); an `OSError` while reading an
installed mtime is caught ("failed to read installed files"); for `source_paths`
both conditions raise `ImportHookError` instead. -/
def get_installation_freshness (source_paths installed_paths : List FileEntry)
    (build_status : BuildStatus) : Except PyErr Freshness :=
  match statAll installed_paths with
  | .error _e => .ok ⟨false, "failed to read installed files", none, none⟩
  | .ok installed_stats =>
    match minBySnd installed_stats with
    | none => .ok ⟨false, "no installed files found", none, none⟩
    | some (oldest_installed_path, installation_mtime) =>
      if |build_status.build_mtime - installation_mtime| > 5 / 1000 then
        .ok ⟨false, "installation mtime does not match build status mtime",
             some oldest_installed_path, none⟩
      else
        match statAll source_paths with
        | .error e =>
          .error (.importHookError
            ("error reading source file mtimes: " ++ e.errRepr ++ " (" ++ e.filename ++ ")"))
        | .ok source_stats =>
          match maxBySnd source_stats with
          | none => .error (.importHookError "no source files found")
          | some (newest_source_path, source_mtime) =>
            if installation_mtime = source_mtime then
              .ok ⟨false, "installation may be out of date",
                   some oldest_installed_path, some newest_source_path⟩
            else if installation_mtime < source_mtime then
              .ok ⟨false, "installation is out of date",
                   some oldest_installed_path, some newest_source_path⟩
            else
              .ok ⟨true, "", some oldest_installed_path, some newest_source_path⟩

/-- The outcome of the `subprocess.run` call in `run_maturin`: return code and
combined stdout+stderr (decoded). -/
structure ProcResult where
  returncode : Int
  stdout : String
deriving DecidableEq

/-- `run_maturin`: returns `(success, output)` where success means a zero exit
status; the output is logged either way but returned unchanged. -/
def run_maturin (result : ProcResult) : Bool × String :=
  (result.returncode == 0, result.stdout)

/-- `develop_build_project`: checks that the settings support the `develop`
command (`ImportHookError` otherwise), runs maturin, and on failure raises
`MaturinError` with a fixed message; the captured output is logged by
`run_maturin` but not attached to the error. -/
def develop_build_project (supports_develop : Bool) (result : ProcResult) :
    Except PyErr String :=
  if supports_develop then
    if (run_maturin result).1 then .ok (run_maturin result).2
    else .error (.maturinError "Failed to build package with maturin")
  else
    .error (.importHookError "provided MaturinSettings does not support the \"develop\" command")

/-- `build_wheel`: same shape as `develop_build_project` for the `build` command. -/
def build_wheel (supports_build : Bool) (result : ProcResult) : Except PyErr String :=
  if supports_build then
    if (run_maturin result).1 then .ok (run_maturin result).2
    else .error (.maturinError "Failed to build wheel with maturin")
  else
    .error (.importHookError "provided MaturinSettings does not support the \"build\" command")

/-- A directory entry as seen by `_find_single_file`: its `Path.suffix` (final
extension including the leading dot, `""` if none) is precomputed. -/
structure DirFile where
  stem : String
  suffix : String
deriving DecidableEq

/-- `_find_single_file`: the single file in the directory with the given extension,
or `none` when there are zero or several candidates (a missing directory yields an
empty listing). -/
def find_single_file (files : List DirFile) (extension : Option String) : Option DirFile :=
  let candidate_files := files.filter fun p =>
    match extension with
    | none => true
    | some ext => p.suffix = ext
  if candidate_files.length = 1 then candidate_files.head? else none

/-- `build_unpacked_wheel`: builds a wheel into the output directory, then locates
the single `.whl` file; if it cannot be located the raised error is
`MaturinError "failed to generate wheel"` — the same exception class as a
build-tool failure. `output_dir_files` is the listing of the output directory
after the build. -/
def build_unpacked_wheel (supports_build : Bool) (result : ProcResult)
    (output_dir_files : List DirFile) : Except PyErr String :=
  match build_wheel supports_build result with
  | .error e => .error e
  | .ok output =>
    match find_single_file output_dir_files (some ".whl") with
    | none => .error (.maturinError "failed to generate wheel")
    | some _wheel_path => .ok output

/-- Whether `needle` occurs at the start of `hay` (character lists). -/
def charsStartWith : List Char → List Char → Bool
  | _, [] => true
  | [], _ :: _ => false
  | a :: hay, b :: needle => a = b && charsStartWith hay needle

/-- Whether `needle` occurs contiguously anywhere in `hay`; used to state that an
error message does not carry the build output. -/
def charsContain : List Char → List Char → Bool
  | [], needle => needle.isEmpty
  | a :: hay, needle => charsStartWith (a :: hay) needle || charsContain hay needle

/-!
The locked region of `MaturinProjectImporter._rebuild_project`
(`project_importer.py`). The lock (`BuildCache.lock` / `_acquire_lock`) totally
orders the check+build+record critical sections of concurrent importing
processes, so a run of N concurrent attempts is modelled as N sequential
executions of the critical section on the shared on-disk state — the fingerprint
directory plus the installed files — which is the only state shared between
processes. The per-attempt environment fixes everything an attempt reads that is
not shared mutable state: the project, the configured maturin arguments, the
newest source mtime (sources are not edited during the run), the mtime the
installed files would have after a successful build, and the outcome of the
build-tool subprocess. The file searcher's path sets are collapsed to one
representative source file (the newest) and one installed file (the oldest),
which is exactly what the oracle's `min`/`max` extract from them.
-/

/-- Per-attempt inputs of `_rebuild_project` that are not shared mutable state. -/
structure RebuildEnv where
  packageName : String
  projectDir : String
  args : List String
  sourceFile : String
  sourceMtime : ℚ
  installedFile : String
  builtMtime : ℚ
  buildReturncode : Int
  buildOutput : String
  specFoundAfterBuild : Bool
  forceRebuild : Bool

/-- The cross-process shared state: the on-disk fingerprint directory and the
installed package files, represented by their oldest mtime (`none` when the
package spec cannot be found, i.e. the package is not installed). -/
structure World where
  dir : CacheDir
  installedMtime : Option ℚ

/-- `_get_spec_for_up_to_date_package`: `.ok none` when the package is up to date
(the spec is returned and no rebuild happens), `.ok (some reason)` when a rebuild
is required, `.error` when the check itself raises. The "could not find installed
package root" case is folded into `installedMtime = none` together with "package
not already installed". -/
def upToDateReason (env : RebuildEnv) (w : World) : Except PyErr (Option String) :=
  if env.forceRebuild then .ok (some "forcing rebuild")
  else
    match w.installedMtime with
    | none => .ok (some "package not already installed")
    | some installation_mtime =>
      match LockedBuildCache.get_build_status w.dir env.projectDir with
      | .error e => .error e
      | .ok none => .ok (some "no build status found")
      | .ok (some build_status) =>
        if build_status.source_path ≠ env.projectDir then
          .ok (some "source path in build status does not match the project dir")
        else if build_status.maturin_args ≠ env.args then
          .ok (some "current maturin args do not match the previous build")
        else
          match get_installation_freshness
              [⟨env.sourceFile, .ok env.sourceMtime⟩]
              [⟨env.installedFile, .ok installation_mtime⟩] build_status with
          | .error e => .error e
          | .ok freshness =>
            if freshness.is_fresh then .ok none else .ok (some freshness.reason)

/-- One critical section of `_rebuild_project` (executed while holding the lock):
returns the shared state afterwards, whether the build tool was invoked, and the
exception that escaped the section, if any. On a successful build the installed
files' mtime and the stored `BuildStatus` both become `builtMtime`, as `Recording`
computes the status from the fresh installation; on a failed build nothing is
stored. When the spec cannot be found after a nominally successful build,
`ImportHookError` is raised before anything is recorded. -/
def rebuildStep (env : RebuildEnv) (w : World) : World × Bool × Option PyErr :=
  match upToDateReason env w with
  | .error e => (w, false, some e)
  | .ok none => (w, false, none)
  | .ok (some _reason) =>
    match develop_build_project true ⟨env.buildReturncode, env.buildOutput⟩ with
    | .error e => (w, true, some e)
    | .ok maturin_output =>
      if env.specFoundAfterBuild then
        let build_status : BuildStatus := ⟨env.builtMtime, env.projectDir, env.args, maturin_output⟩
        (⟨LockedBuildCache.store_build_status w.dir build_status, some env.builtMtime⟩,
         true, none)
      else
        (w, true,
         some (.importHookError
           ("cannot find package \"" ++ env.packageName ++ "\" after installation")))

/-- How many of `n` lock-serialized import attempts invoke the build tool. -/
def buildCount (env : RebuildEnv) : World → ℕ → ℕ
  | _, 0 => 0
  | w, n + 1 =>
    (if (rebuildStep env w).2.1 then 1 else 0) + buildCount env (rebuildStep env w).1 n

/-- How many of `n` lock-serialized import attempts raise an exception. -/
def errorCount (env : RebuildEnv) : World → ℕ → ℕ
  | _, 0 => 0
  | w, n + 1 =>
    (if (rebuildStep env w).2.2.isSome then 1 else 0) + errorCount env (rebuildStep env w).1 n

/-!
The `install`/`uninstall` pair of `project_importer.py` and the module-level
`IMPORTER` global. `sys.meta_path` holds both foreign finders and importer
instances created by this module; instances are identified by a creation counter
(each `MaturinProjectImporter(...)` call produces a new object). `list.remove`
removes the first occurrence and raises `ValueError` when absent, which both call
sites suppress, so removal is modelled as `removeFirst`.
-/

inductive MetaPathEntry where
  | foreign (id : ℕ)
  | hook (id : ℕ)
deriving DecidableEq

def isHook : MetaPathEntry → Bool
  | .hook _ => true
  | .foreign _ => false

def hookId : MetaPathEntry → ℕ
  | .hook i => i
  | .foreign i => i

/-- `sys.meta_path.remove(x)` under `contextlib.suppress(ValueError)`. -/
def removeFirst : List MetaPathEntry → MetaPathEntry → List MetaPathEntry
  | [], _ => []
  | x :: rest, a => if x = a then rest else x :: removeFirst rest a

/-- Host interpreter state touched by `install`/`uninstall`: `sys.meta_path`, the
`IMPORTER` global, and the next fresh instance id. -/
structure HookState where
  metaPath : List MetaPathEntry
  importer : Option ℕ
  nextId : ℕ

namespace ProjectImporter

/-- `install` (`project_importer.py`): removes the previously installed instance
(if any) from `sys.meta_path`, constructs a fresh importer, inserts it at index 0
and records it in `IMPORTER`. -/
def install (s : HookState) : HookState :=
  ⟨.hook s.nextId ::
      (match s.importer with
       | some i => removeFirst s.metaPath (.hook i)
       | none => s.metaPath),
   some s.nextId, s.nextId + 1⟩

/-- `uninstall` (`project_importer.py`): removes the current instance from
`sys.meta_path` (suppressing `ValueError`) and clears `IMPORTER`; a no-op when
nothing is installed. -/
def uninstall (s : HookState) : HookState :=
  match s.importer with
  | some i => ⟨removeFirst s.metaPath (.hook i), none, s.nextId⟩
  | none => s

end ProjectImporter

inductive HookOp where
  | installOp
  | uninstallOp

def applyOp (s : HookState) : HookOp → HookState
  | .installOp => ProjectImporter.install s
  | .uninstallOp => ProjectImporter.uninstall s

def runOps (ops : List HookOp) (s : HookState) : HookState :=
  ops.foldl applyOp s

/-- Number of importer instances created by this module that are registered on
`sys.meta_path`. -/
def countHooks (l : List MetaPathEntry) : ℕ := l.countP fun e => isHook e

/-! Claim theorems about the freshness oracle. -/

/-- C4: for every non-empty source set and non-empty installed set whose stats all
succeed, if the newest source mtime is strictly less than the oldest installed
mtime and the fingerprint's recorded build timestamp matches the oldest installed
mtime within 5 milliseconds, `get_installation_freshness` returns a verdict with
`is_fresh = true` (and empty reason, with both diagnostic pointers set). -/
theorem freshness_fresh_when_strictly_newer
    (source_paths installed_paths : List FileEntry) (build_status : BuildStatus)
    (installed_stats source_stats : List (String × ℚ))
    (oldest newest : String) (installation_mtime source_mtime : ℚ)
    (hi : statAll installed_paths = .ok installed_stats)
    (hmin : minBySnd installed_stats = some (oldest, installation_mtime))
    (hs : statAll source_paths = .ok source_stats)
    (hmax : maxBySnd source_stats = some (newest, source_mtime))
    (hlt : source_mtime < installation_mtime)
    (htol : |build_status.build_mtime - installation_mtime| ≤ 5 / 1000) :
    get_installation_freshness source_paths installed_paths build_status =
      .ok ⟨true, "", some oldest, some newest⟩ := by
  simp only [get_installation_freshness, hi, hmin]
  rw [if_neg (not_lt.mpr htol)]
  simp only [hs, hmax]
  rw [if_neg (ne_of_gt hlt), if_neg (not_lt.mpr (le_of_lt hlt))]

theorem freshness_fresh_when_strictly_newer_witness :
    get_installation_freshness [⟨"src/lib.rs", .ok 1⟩] [⟨"pkg/lib.so", .ok 2⟩]
      ⟨2, "proj", [], ""⟩ = .ok ⟨true, "", some "pkg/lib.so", some "src/lib.rs"⟩ :=
  freshness_fresh_when_strictly_newer [⟨"src/lib.rs", .ok 1⟩] [⟨"pkg/lib.so", .ok 2⟩]
    ⟨2, "proj", [], ""⟩ [("pkg/lib.so", 2)] [("src/lib.rs", 1)] "pkg/lib.so" "src/lib.rs" 2 1
    rfl rfl rfl rfl (by norm_num) (by norm_num)

/-- C5: whenever the newest source mtime equals the oldest installed mtime (and
the earlier checks pass: stats readable, installed set non-empty, build timestamp
within tolerance), the verdict is not fresh with reason exactly
"installation may be out of date". File contents are not an input of the oracle,
so the verdict cannot depend on them. -/
theorem freshness_equal_mtime_stale
    (source_paths installed_paths : List FileEntry) (build_status : BuildStatus)
    (installed_stats source_stats : List (String × ℚ))
    (oldest newest : String) (installation_mtime source_mtime : ℚ)
    (hi : statAll installed_paths = .ok installed_stats)
    (hmin : minBySnd installed_stats = some (oldest, installation_mtime))
    (hs : statAll source_paths = .ok source_stats)
    (hmax : maxBySnd source_stats = some (newest, source_mtime))
    (heq : installation_mtime = source_mtime)
    (htol : |build_status.build_mtime - installation_mtime| ≤ 5 / 1000) :
    get_installation_freshness source_paths installed_paths build_status =
      .ok ⟨false, "installation may be out of date", some oldest, some newest⟩ := by
  simp only [get_installation_freshness, hi, hmin]
  rw [if_neg (not_lt.mpr htol)]
  simp only [hs, hmax]
  rw [if_pos heq]

theorem freshness_equal_mtime_stale_witness :
    get_installation_freshness [⟨"src/lib.rs", .ok 2⟩] [⟨"pkg/lib.so", .ok 2⟩]
      ⟨2, "proj", [], ""⟩ =
      .ok ⟨false, "installation may be out of date", some "pkg/lib.so", some "src/lib.rs"⟩ :=
  freshness_equal_mtime_stale [⟨"src/lib.rs", .ok 2⟩] [⟨"pkg/lib.so", .ok 2⟩]
    ⟨2, "proj", [], ""⟩ [("pkg/lib.so", 2)] [("src/lib.rs", 2)] "pkg/lib.so" "src/lib.rs" 2 2
    rfl rfl rfl rfl rfl (by norm_num)

/-- C6: for every fingerprint and every source set, the freshness check on an
empty installed-paths set returns exactly the not-fresh verdict with reason
"no installed files found" and both diagnostic pointers null. -/
theorem freshness_no_installed_files
    (source_paths : List FileEntry) (build_status : BuildStatus) :
    get_installation_freshness source_paths [] build_status =
      .ok ⟨false, "no installed files found", none, none⟩ := rfl

/-- C7: an `OSError` while reading installed-path mtimes is non-fatal and yields
the not-fresh verdict with reason "failed to read installed files", whereas (once
the installed side of the check has passed) an empty or unreadable source-path
set raises an `ImportHookError` that propagates out of the check instead of
producing any verdict. -/
theorem freshness_read_error_handling :
    (∀ (source_paths installed_paths : List FileEntry) (build_status : BuildStatus)
        (e : OSErr), statAll installed_paths = .error e →
        get_installation_freshness source_paths installed_paths build_status =
          .ok ⟨false, "failed to read installed files", none, none⟩)
    ∧ (∀ (source_paths installed_paths : List FileEntry) (build_status : BuildStatus)
        (installed_stats : List (String × ℚ)) (oldest : String) (installation_mtime : ℚ),
        statAll installed_paths = .ok installed_stats →
        minBySnd installed_stats = some (oldest, installation_mtime) →
        |build_status.build_mtime - installation_mtime| ≤ 5 / 1000 →
        (source_paths = [] ∨ ∃ e, statAll source_paths = .error e) →
        ∃ msg, get_installation_freshness source_paths installed_paths build_status =
          .error (.importHookError msg)) := by
  constructor
  · intro source_paths installed_paths build_status e he
    simp only [get_installation_freshness, he]
  · intro source_paths installed_paths build_status installed_stats oldest installation_mtime
      hi hmin htol hsrc
    simp only [get_installation_freshness, hi, hmin]
    rw [if_neg (not_lt.mpr htol)]
    rcases hsrc with rfl | ⟨e, he⟩
    · exact ⟨"no source files found", rfl⟩
    · refine ⟨"error reading source file mtimes: " ++ e.errRepr ++ " (" ++ e.filename ++ ")", ?_⟩
      simp only [he]

theorem freshness_read_error_handling_witness :
    get_installation_freshness [⟨"src/lib.rs", .ok 1⟩]
        [⟨"pkg/lib.so", .error ⟨"PermissionError(13)", "pkg/lib.so"⟩⟩] ⟨2, "proj", [], ""⟩ =
        .ok ⟨false, "failed to read installed files", none, none⟩
    ∧ ∃ msg, get_installation_freshness [] [⟨"pkg/lib.so", .ok 2⟩] ⟨2, "proj", [], ""⟩ =
        .error (.importHookError msg) :=
  ⟨freshness_read_error_handling.1 [⟨"src/lib.rs", .ok 1⟩]
      [⟨"pkg/lib.so", .error ⟨"PermissionError(13)", "pkg/lib.so"⟩⟩] ⟨2, "proj", [], ""⟩
      ⟨"PermissionError(13)", "pkg/lib.so"⟩ rfl,
   freshness_read_error_handling.2 [] [⟨"pkg/lib.so", .ok 2⟩] ⟨2, "proj", [], ""⟩
      [("pkg/lib.so", 2)] "pkg/lib.so" 2 rfl rfl (by norm_num) (Or.inl rfl)⟩

/-! Helper lemmas for the fingerprint store. -/

theorem lookupKey_insertKey (dir : CacheDir) (key : String) (v : JsonDoc) :
    lookupKey (insertKey dir key v) key = some v := by
  induction dir with
  | nil => simp [insertKey, lookupKey]
  | cons entry rest ih =>
    obtain ⟨k, v0⟩ := entry
    by_cases h : k = key
    · simp [insertKey, lookupKey, h]
    · simp [insertKey, lookupKey, h, ih]

theorem decodeStrList_map_str (l : List String) :
    decodeStrList (l.map Json.str) = some l := by
  induction l with
  | nil => rfl
  | cons x xs ih => simp [decodeStrList, asStr, ih]

theorem from_json_to_json (bs : BuildStatus) :
    BuildStatus.from_json bs.to_json = .ok (some bs) := by
  obtain ⟨m, p, args, out⟩ := bs
  simp [BuildStatus.from_json, BuildStatus.to_json, lookupField, asNum, asStr, asStrArr,
    decodeStrList_map_str]

theorem get_build_status_store (dir : CacheDir) (bs : BuildStatus) :
    LockedBuildCache.get_build_status (LockedBuildCache.store_build_status dir bs)
      bs.source_path = .ok (some bs) := by
  simp only [LockedBuildCache.get_build_status, LockedBuildCache.store_build_status,
    lookupKey_insertKey, json_load, from_json_to_json]

/-- C8: storing a fingerprint and then looking up its source path returns an equal
fingerprint; looking up a source path whose fingerprint file does not exist
returns null; and storing fingerprint `a` and then fingerprint `b` for the same
source path replaces `a`, so a subsequent lookup returns `b`. (The store is keyed
by a hash of the source path, modelled as injective.) -/
theorem build_status_roundtrip :
    (∀ (dir : CacheDir) (f : BuildStatus),
        LockedBuildCache.get_build_status (LockedBuildCache.store_build_status dir f)
          f.source_path = .ok (some f))
    ∧ (∀ (dir : CacheDir) (p : String), lookupKey dir (build_status_key p) = none →
        LockedBuildCache.get_build_status dir p = .ok none)
    ∧ (∀ (dir : CacheDir) (a b : BuildStatus), a.source_path = b.source_path →
        LockedBuildCache.get_build_status
          (LockedBuildCache.store_build_status (LockedBuildCache.store_build_status dir a) b)
          a.source_path = .ok (some b)) := by
  refine ⟨get_build_status_store, ?_, ?_⟩
  · intro dir p h
    simp only [LockedBuildCache.get_build_status, h]
  · intro dir a b h
    rw [h]
    exact get_build_status_store _ b

theorem build_status_roundtrip_witness :
    LockedBuildCache.get_build_status
        (LockedBuildCache.store_build_status [] ⟨2, "proj", ["--release"], "out"⟩) "proj" =
        .ok (some ⟨2, "proj", ["--release"], "out"⟩)
    ∧ LockedBuildCache.get_build_status [] "other" = .ok none
    ∧ LockedBuildCache.get_build_status
        (LockedBuildCache.store_build_status
          (LockedBuildCache.store_build_status [] ⟨2, "proj", ["--release"], "outA"⟩)
          ⟨3, "proj", [], "outB"⟩) "proj" = .ok (some ⟨3, "proj", [], "outB"⟩) :=
  ⟨build_status_roundtrip.1 [] ⟨2, "proj", ["--release"], "out"⟩,
   build_status_roundtrip.2.1 [] "other" rfl,
   build_status_roundtrip.2.2 [] ⟨2, "proj", ["--release"], "outA"⟩ ⟨3, "proj", [], "outB"⟩ rfl⟩

/-- C2 counterexample: a stored fingerprint file whose content is not valid JSON
makes `get_build_status` raise `json.JSONDecodeError` (only `FileNotFoundError`
is caught), rather than return null. -/
theorem corrupt_fingerprint_raises_cex :
    LockedBuildCache.get_build_status [("proj", JsonDoc.malformed "not valid json")] "proj" =
      .error .jsonDecodeError
    ∧ (Except.error PyErr.jsonDecodeError : Except PyErr (Option BuildStatus)) ≠ .ok none :=
  ⟨rfl, fun h => Except.noConfusion h⟩

/-- C2 (amended): `get_build_status` returns null without raising when the
fingerprint file is missing; when the file holds a well-formed JSON object it
returns null for every missing required key that is reached in the fixed read
order (`build_mtime`, then `source_path` followed by `Path(...)`, then
`maturin_args`, then `maturin_output`) — that is, when `build_mtime` is absent,
when `source_path` is absent, or when the present `source_path` value is a
string and `maturin_args` or `maturin_output` is absent; content that is not
valid JSON makes `json.load` raise `JSONDecodeError`, which propagates; and a
present `source_path` value that is not a string makes `Path()` raise an
uncaught `TypeError` before any later key is read, even when a later required
key is also missing. -/
theorem get_build_status_corruption_handling :
    (∀ (dir : CacheDir) (p : String), lookupKey dir (build_status_key p) = none →
        LockedBuildCache.get_build_status dir p = .ok none)
    ∧ (∀ (dir : CacheDir) (p : String) (fields : List (String × Json)),
        lookupKey dir (build_status_key p) = some (.wellFormed (.obj fields)) →
        (lookupField fields "build_mtime" = none
          ∨ lookupField fields "source_path" = none
          ∨ ∃ s, lookupField fields "source_path" = some (.str s)
              ∧ (lookupField fields "maturin_args" = none
                 ∨ lookupField fields "maturin_output" = none)) →
        LockedBuildCache.get_build_status dir p = .ok none)
    ∧ (∀ (dir : CacheDir) (p raw : String),
        lookupKey dir (build_status_key p) = some (.malformed raw) →
        LockedBuildCache.get_build_status dir p = .error .jsonDecodeError)
    ∧ (∀ (dir : CacheDir) (p : String) (fields : List (String × Json)) (jm jp : Json),
        lookupKey dir (build_status_key p) = some (.wellFormed (.obj fields)) →
        lookupField fields "build_mtime" = some jm →
        lookupField fields "source_path" = some jp →
        asStr jp = none →
        LockedBuildCache.get_build_status dir p = .error .typeError) := by
  refine ⟨?_, ?_, ?_, ?_⟩
  · intro dir p h
    simp only [LockedBuildCache.get_build_status, h]
  · intro dir p fields h hdisj
    have hget : LockedBuildCache.get_build_status dir p = BuildStatus.from_json (.obj fields) := by
      simp only [LockedBuildCache.get_build_status, h, json_load]
    rw [hget]
    rcases hdisj with h1 | h2 | ⟨s, hs, hmo⟩
    · simp only [BuildStatus.from_json, h1]
    · cases hbm : lookupField fields "build_mtime" with
      | none => simp only [BuildStatus.from_json, hbm]
      | some jm => simp only [BuildStatus.from_json, hbm, h2]
    · cases hbm : lookupField fields "build_mtime" with
      | none => simp only [BuildStatus.from_json, hbm]
      | some jm =>
        rcases hmo with hma | hmo2
        · simp only [BuildStatus.from_json, hbm, hs, asStr, hma]
        · cases hma2 : lookupField fields "maturin_args" with
          | none => simp only [BuildStatus.from_json, hbm, hs, asStr, hma2]
          | some ja => simp only [BuildStatus.from_json, hbm, hs, asStr, hma2, hmo2]
  · intro dir p raw h
    simp only [LockedBuildCache.get_build_status, h, json_load]
  · intro dir p fields jm jp h hbm hsp hstr
    simp only [LockedBuildCache.get_build_status, h, json_load, BuildStatus.from_json,
      hbm, hsp, hstr]

theorem get_build_status_corruption_handling_witness :
    LockedBuildCache.get_build_status [] "proj" = .ok none
    ∧ LockedBuildCache.get_build_status
        [("proj", JsonDoc.wellFormed (.obj
          [("build_mtime", .num 1), ("source_path", .str "proj"), ("maturin_args", .arr [])]))]
        "proj" = .ok none
    ∧ LockedBuildCache.get_build_status [("proj", JsonDoc.malformed "json trailing garbage")] "proj" =
        .error .jsonDecodeError
    ∧ LockedBuildCache.get_build_status
        [("proj", JsonDoc.wellFormed (.obj
          [("build_mtime", .num 1), ("source_path", .num 3)]))] "proj" = .error .typeError :=
  ⟨get_build_status_corruption_handling.1 [] "proj" rfl,
   get_build_status_corruption_handling.2.1
     [("proj", JsonDoc.wellFormed (.obj
       [("build_mtime", .num 1), ("source_path", .str "proj"), ("maturin_args", .arr [])]))]
     "proj" [("build_mtime", .num 1), ("source_path", .str "proj"), ("maturin_args", .arr [])]
     rfl (Or.inr (Or.inr ⟨"proj", rfl, Or.inr rfl⟩)),
   get_build_status_corruption_handling.2.2.1
     [("proj", JsonDoc.malformed "json trailing garbage")] "proj" "json trailing garbage" rfl,
   get_build_status_corruption_handling.2.2.2
     [("proj", JsonDoc.wellFormed (.obj [("build_mtime", .num 1), ("source_path", .num 3)]))]
     "proj" [("build_mtime", .num 1), ("source_path", .num 3)] (.num 1) (.num 3) rfl rfl rfl rfl⟩

/-! Claims about the build step. -/

/-- C3 counterexample: when maturin exits non-zero the raised error is
`MaturinError` with the fixed message "Failed to build package with maturin"; the
captured build-tool output is not part of the error (it is only logged), so the
build error does not carry the captured output. -/
theorem build_error_lacks_output_cex :
    develop_build_project true ⟨101, "error: could not compile maturin project"⟩ =
      .error (.maturinError "Failed to build package with maturin")
    ∧ charsContain "Failed to build package with maturin".toList
        "error: could not compile maturin project".toList = false
    ∧ "Failed to build package with maturin" ≠ "error: could not compile maturin project" := by
  refine ⟨?_, by decide, by decide⟩
  simp [develop_build_project, run_maturin]

/-- C3 (amended): for every build-tool invocation that exits non-zero (reached
because the up-to-date check demanded a rebuild), the operation fails with a
`MaturinError` carrying only the fixed message "Failed to build package with
maturin" (the captured output is logged, not attached to the error), the shared
state — in particular the fingerprint store — is unchanged, and a subsequent
attempt re-triggers a rebuild rather than treating the failed state as fresh. -/
theorem build_failure_leaves_store_unchanged
    (env : RebuildEnv) (w : World) (r : String)
    (hreason : upToDateReason env w = .ok (some r))
    (hfail : env.buildReturncode ≠ 0) :
    rebuildStep env w = (w, true, some (.maturinError "Failed to build package with maturin"))
    ∧ (rebuildStep env (rebuildStep env w).1).2.1 = true := by
  have hbeq : (env.buildReturncode == 0) = false := beq_eq_false_iff_ne.mpr hfail
  have h1 : rebuildStep env w =
      (w, true, some (.maturinError "Failed to build package with maturin")) := by
    simp [rebuildStep, hreason, develop_build_project, run_maturin, hbeq]
  refine ⟨h1, ?_⟩
  rw [h1]
  rw [show (w, true, some (PyErr.maturinError "Failed to build package with maturin")).1 = w
    from rfl, h1]

theorem build_failure_leaves_store_unchanged_witness :
    rebuildStep ⟨"pkg", "proj", [], "src.rs", 1, "lib.so", 2, 101, "error: boom", true, false⟩
        ⟨[], none⟩ =
      (⟨[], none⟩, true, some (.maturinError "Failed to build package with maturin"))
    ∧ (rebuildStep ⟨"pkg", "proj", [], "src.rs", 1, "lib.so", 2, 101, "error: boom", true, false⟩
        (rebuildStep ⟨"pkg", "proj", [], "src.rs", 1, "lib.so", 2, 101, "error: boom", true, false⟩
          ⟨[], none⟩).1).2.1 = true :=
  build_failure_leaves_store_unchanged
    ⟨"pkg", "proj", [], "src.rs", 1, "lib.so", 2, 101, "error: boom", true, false⟩
    ⟨[], none⟩ "package not already installed" rfl (by norm_num)

/-- C9 counterexample: in `build_unpacked_wheel`, when the build tool reports
success (exit code 0) but no wheel can be located in the output directory, the
raised error is `MaturinError "failed to generate wheel"` — the same exception
class (`MaturinError`) as a build-tool failure, not a distinct kind. -/
theorem missing_wheel_same_error_kind_cex :
    build_unpacked_wheel true ⟨0, "maturin output"⟩ [] =
      .error (.maturinError "failed to generate wheel")
    ∧ build_wheel true ⟨1, "compile error output"⟩ =
      .error (.maturinError "Failed to build wheel with maturin")
    ∧ PyErr.kind (.maturinError "failed to generate wheel") =
        PyErr.kind (.maturinError "Failed to build wheel with maturin") := by
  refine ⟨?_, ?_, rfl⟩
  · simp [build_unpacked_wheel, build_wheel, run_maturin, find_single_file]
  · simp [build_wheel, run_maturin]

/-- C9 (amended): in the project importer, when the build tool reports success
but the package spec cannot be found afterwards, the operation fails immediately
with an `ImportHookError`, whose dynamic class is distinct from the
`MaturinError` used for build-tool failures; but in `build_unpacked_wheel`, a
wheel that cannot be located after a nominally successful build raises a
`MaturinError` of the same kind as a build-tool failure. -/
theorem artifact_missing_error_kinds :
    (∀ (env : RebuildEnv) (w : World) (r : String),
        upToDateReason env w = .ok (some r) → env.buildReturncode = 0 →
        env.specFoundAfterBuild = false →
        rebuildStep env w = (w, true, some (.importHookError
          ("cannot find package \"" ++ env.packageName ++ "\" after installation")))
        ∧ ∀ m1 m2 : String,
            PyErr.kind (.importHookError m1) ≠ PyErr.kind (.maturinError m2))
    ∧ (∀ (result : ProcResult) (files : List DirFile), result.returncode = 0 →
        find_single_file files (some ".whl") = none →
        build_unpacked_wheel true result files = .error (.maturinError "failed to generate wheel")
        ∧ PyErr.kind (.maturinError "failed to generate wheel") =
            PyErr.kind (.maturinError "Failed to build wheel with maturin")) := by
  constructor
  · intro env w r hreason hok hspec
    have hbeq : (env.buildReturncode == 0) = true := by simp [hok]
    constructor
    · simp [rebuildStep, hreason, develop_build_project, run_maturin, hbeq, hspec]
    · intro m1 m2 h
      exact ErrKind.noConfusion h
  · intro result files hok hwhl
    have hbeq : (result.returncode == 0) = true := by simp [hok]
    constructor
    · simp [build_unpacked_wheel, build_wheel, run_maturin, hbeq, hwhl]
    · rfl

theorem artifact_missing_error_kinds_witness :
    rebuildStep ⟨"pkg", "proj", [], "src.rs", 1, "lib.so", 2, 0, "ok", false, false⟩ ⟨[], none⟩ =
      (⟨[], none⟩, true, some (.importHookError
        ("cannot find package \"" ++ "pkg" ++ "\" after installation")))
    ∧ build_unpacked_wheel true ⟨0, "ok"⟩ [⟨"pkg-1.0", ".tar"⟩] =
        .error (.maturinError "failed to generate wheel") :=
  ⟨(artifact_missing_error_kinds.1
      ⟨"pkg", "proj", [], "src.rs", 1, "lib.so", 2, 0, "ok", false, false⟩ ⟨[], none⟩
      "package not already installed" rfl rfl rfl).1,
   (artifact_missing_error_kinds.2 ⟨0, "ok"⟩ [⟨"pkg-1.0", ".tar"⟩] rfl rfl).1⟩

/-! Lemmas for the concurrency claim: after one successful critical section the
shared state is "fresh" and every later lock-serialized attempt skips. -/

/-- Shared state after a successful build+record critical section starting from
fingerprint directory `dir`. -/
def freshWorld (env : RebuildEnv) (dir : CacheDir) : World :=
  ⟨LockedBuildCache.store_build_status dir
      ⟨env.builtMtime, env.projectDir, env.args, env.buildOutput⟩,
   some env.builtMtime⟩

theorem freshness_after_build (env : RebuildEnv) (hsrc : env.sourceMtime < env.builtMtime) :
    get_installation_freshness [⟨env.sourceFile, .ok env.sourceMtime⟩]
      [⟨env.installedFile, .ok env.builtMtime⟩]
      ⟨env.builtMtime, env.projectDir, env.args, env.buildOutput⟩ =
      .ok ⟨true, "", some env.installedFile, some env.sourceFile⟩ := by
  have h1 : statAll [⟨env.installedFile, .ok env.builtMtime⟩] =
      .ok [(env.installedFile, env.builtMtime)] := rfl
  have h2 : statAll [⟨env.sourceFile, .ok env.sourceMtime⟩] =
      .ok [(env.sourceFile, env.sourceMtime)] := rfl
  have htol : ¬ ((5 : ℚ) / 1000 < |env.builtMtime - env.builtMtime|) := by
    rw [sub_self, abs_zero]
    norm_num
  simp only [get_installation_freshness, h1, h2, minBySnd, maxBySnd, List.foldl]
  rw [if_neg htol, if_neg (ne_of_gt hsrc), if_neg (not_lt.mpr (le_of_lt hsrc))]

theorem upToDateReason_fresh (env : RebuildEnv) (dir : CacheDir)
    (hforce : env.forceRebuild = false) (hsrc : env.sourceMtime < env.builtMtime) :
    upToDateReason env (freshWorld env dir) = .ok none := by
  have hbs : LockedBuildCache.get_build_status
      (LockedBuildCache.store_build_status dir
        ⟨env.builtMtime, env.projectDir, env.args, env.buildOutput⟩) env.projectDir =
      .ok (some ⟨env.builtMtime, env.projectDir, env.args, env.buildOutput⟩) :=
    get_build_status_store dir _
  simp [upToDateReason, freshWorld, hforce, hbs, freshness_after_build env hsrc]

theorem rebuildStep_fresh (env : RebuildEnv) (dir : CacheDir)
    (hforce : env.forceRebuild = false) (hsrc : env.sourceMtime < env.builtMtime) :
    rebuildStep env (freshWorld env dir) = (freshWorld env dir, false, none) := by
  simp only [rebuildStep, upToDateReason_fresh env dir hforce hsrc]

theorem rebuildStep_initial (env : RebuildEnv) (w : World)
    (hforce : env.forceRebuild = false) (hrc : env.buildReturncode = 0)
    (hspec : env.specFoundAfterBuild = true)
    (hnew : lookupKey w.dir (build_status_key env.projectDir) = none) :
    rebuildStep env w = (freshWorld env w.dir, true, none) := by
  have hget : LockedBuildCache.get_build_status w.dir env.projectDir = .ok none := by
    simp only [LockedBuildCache.get_build_status, hnew]
  have hbeq : (env.buildReturncode == 0) = true := by simp [hrc]
  have hdev : develop_build_project true ⟨env.buildReturncode, env.buildOutput⟩ =
      .ok env.buildOutput := by
    simp [develop_build_project, run_maturin, hbeq]
  obtain ⟨r, hr⟩ : ∃ r, upToDateReason env w = .ok (some r) := by
    cases hw : w.installedMtime with
    | none =>
      refine ⟨"package not already installed", ?_⟩
      simp [upToDateReason, hforce, hw]
    | some im =>
      refine ⟨"no build status found", ?_⟩
      simp [upToDateReason, hforce, hw, hget]
  simp [rebuildStep, hr, hdev, hspec, freshWorld]

theorem buildCount_fresh (env : RebuildEnv) (dir : CacheDir) (m : ℕ)
    (hforce : env.forceRebuild = false) (hsrc : env.sourceMtime < env.builtMtime) :
    buildCount env (freshWorld env dir) m = 0 ∧ errorCount env (freshWorld env dir) m = 0 := by
  induction m with
  | zero => exact ⟨rfl, rfl⟩
  | succ k ih =>
    constructor
    · rw [buildCount, rebuildStep_fresh env dir hforce hsrc]
      simpa using ih.1
    · rw [errorCount, rebuildStep_fresh env dir hforce hsrc]
      simpa using ih.2

/-- C1: of `n ≥ 2` concurrent import attempts for the same never-before-built
source root sharing one build-cache directory — serialized by the cross-process
lock, with the on-disk fingerprint store and installed files as the only shared
state — exactly one attempt invokes the build tool, and no attempt fails: each
other attempt runs its freshness check after waiting for the lock, observes the
fingerprint recorded by the one build as fresh, and skips building. -/
theorem concurrent_imports_single_build (env : RebuildEnv) (w0 : World) (n : ℕ)
    (hforce : env.forceRebuild = false) (hrc : env.buildReturncode = 0)
    (hspec : env.specFoundAfterBuild = true) (hsrc : env.sourceMtime < env.builtMtime)
    (hnew : lookupKey w0.dir (build_status_key env.projectDir) = none) (hn : 2 ≤ n) :
    buildCount env w0 n = 1 ∧ errorCount env w0 n = 0 := by
  obtain ⟨m, rfl⟩ : ∃ m, n = m + 1 := ⟨n - 1, by omega⟩
  have hstep := rebuildStep_initial env w0 hforce hrc hspec hnew
  have hrest := buildCount_fresh env w0.dir m hforce hsrc
  constructor
  · rw [buildCount, hstep]
    simpa using hrest.1
  · rw [errorCount, hstep]
    simpa using hrest.2

theorem concurrent_imports_single_build_witness :
    buildCount (⟨"pkg", "proj", ["--release"], "src.rs", 1, "lib.so", 2, 0, "ok", true, false⟩ :
        RebuildEnv) ⟨[], none⟩ 2 = 1
    ∧ errorCount (⟨"pkg", "proj", ["--release"], "src.rs", 1, "lib.so", 2, 0, "ok", true, false⟩ :
        RebuildEnv) ⟨[], none⟩ 2 = 0 :=
  concurrent_imports_single_build
    ⟨"pkg", "proj", ["--release"], "src.rs", 1, "lib.so", 2, 0, "ok", true, false⟩
    ⟨[], none⟩ 2 rfl rfl rfl (by norm_num) rfl (by norm_num)

/-! Lemmas for the install/uninstall invariant. -/

theorem countHooks_nil : countHooks [] = 0 := rfl

theorem countHooks_cons (x : MetaPathEntry) (l : List MetaPathEntry) :
    countHooks (x :: l) = countHooks l + if isHook x then 1 else 0 := by
  simp [countHooks, List.countP_cons]

theorem countHooks_eq_zero (l : List MetaPathEntry) :
    countHooks l = 0 ↔ ∀ e ∈ l, isHook e = false := by
  simp [countHooks, List.countP_eq_zero]

theorem countHooks_removeFirst_zero (l : List MetaPathEntry) (i : ℕ)
    (hle : countHooks l ≤ 1) (hall : ∀ e ∈ l, isHook e = true → e = .hook i) :
    countHooks (removeFirst l (.hook i)) = 0 := by
  induction l with
  | nil => rfl
  | cons x rest ih =>
    by_cases hx : x = MetaPathEntry.hook i
    · subst hx
      have h1 : countHooks rest = 0 := by
        rw [countHooks_cons] at hle
        simp [isHook] at hle
        omega
      simp [removeFirst, h1]
    · have hhx : isHook x = false := by
        by_contra hc
        exact hx (hall x (List.mem_cons_self x rest) (by simpa using hc))
      have hle' : countHooks rest ≤ 1 := by
        rw [countHooks_cons, hhx] at hle
        simpa using hle
      simp only [removeFirst]
      rw [if_neg hx, countHooks_cons, hhx]
      simp [ih hle' fun e he hh => hall e (List.mem_cons_of_mem x he) hh]

/-- The invariant relating `IMPORTER` to `sys.meta_path`: at most one
module-created importer is registered, and any registered one is the one recorded
in `IMPORTER`. -/
def HookInv (s : HookState) : Prop :=
  countHooks s.metaPath ≤ 1
  ∧ ∀ e ∈ s.metaPath, isHook e = true → ∃ i, s.importer = some i ∧ e = .hook i

theorem HookInv_install (s : HookState) (h : HookInv s) :
    HookInv (ProjectImporter.install s) := by
  obtain ⟨hle, hall⟩ := h
  have hmp : countHooks
      (match s.importer with
       | some i => removeFirst s.metaPath (.hook i)
       | none => s.metaPath) = 0 := by
    cases himp : s.importer with
    | none =>
      rw [countHooks_eq_zero]
      intro e he
      by_contra hc
      obtain ⟨i, hi, _⟩ := hall e he (by simpa using hc)
      rw [himp] at hi
      exact Option.noConfusion hi
    | some i =>
      exact countHooks_removeFirst_zero s.metaPath i hle fun e he hh => by
        obtain ⟨j, hj, hej⟩ := hall e he hh
        rw [himp] at hj
        exact hej.trans (congrArg MetaPathEntry.hook (Option.some_inj.mp hj).symm)
  constructor
  · rw [ProjectImporter.install, countHooks_cons, hmp]
    simp [isHook]
  · intro e he hh
    rw [ProjectImporter.install] at he
    rcases List.mem_cons.mp he with rfl | he2
    · exact ⟨s.nextId, rfl, rfl⟩
    · rw [countHooks_eq_zero] at hmp
      rw [hmp e he2] at hh
      exact Bool.noConfusion hh

theorem HookInv_uninstall (s : HookState) (h : HookInv s) :
    HookInv (ProjectImporter.uninstall s) := by
  obtain ⟨hle, hall⟩ := h
  cases himp : s.importer with
  | none =>
    simp only [ProjectImporter.uninstall, himp]
    exact ⟨hle, fun e he hh => hall e he hh⟩
  | some i =>
    have hz : countHooks (removeFirst s.metaPath (.hook i)) = 0 :=
      countHooks_removeFirst_zero s.metaPath i hle fun e he hh => by
        obtain ⟨j, hj, hej⟩ := hall e he hh
        rw [himp] at hj
        exact hej.trans (congrArg MetaPathEntry.hook (Option.some_inj.mp hj).symm)
    simp only [ProjectImporter.uninstall, himp]
    refine ⟨le_trans (le_of_eq hz) (by norm_num), fun e he hh => absurd hh ?_⟩
    rw [countHooks_eq_zero] at hz
    simp [hz e he]

theorem HookInv_runOps (ops : List HookOp) (s : HookState) (h : HookInv s) :
    HookInv (runOps ops s) := by
  induction ops generalizing s with
  | nil => exact h
  | cons op rest ih =>
    cases op with
    | installOp => exact ih _ (HookInv_install s h)
    | uninstallOp => exact ih _ (HookInv_uninstall s h)

/-- C10: after any sequence of `install()`/`uninstall()` calls starting from a
state with no module-created importer registered, at most one importer instance
created by the module is present on `sys.meta_path`; `uninstall` is idempotent;
`uninstall` with nothing installed is a no-op (no exception escapes, as the
`ValueError` from `list.remove` is suppressed); and `install` inserts the new
instance at the front of `sys.meta_path`. -/
theorem install_uninstall_at_most_one :
    (∀ (ops : List HookOp) (s0 : HookState), countHooks s0.metaPath = 0 →
        s0.importer = none → countHooks (runOps ops s0).metaPath ≤ 1)
    ∧ (∀ s : HookState,
        ProjectImporter.uninstall (ProjectImporter.uninstall s) = ProjectImporter.uninstall s)
    ∧ (∀ s : HookState, s.importer = none → ProjectImporter.uninstall s = s)
    ∧ (∀ s : HookState,
        (ProjectImporter.install s).metaPath.head? = some (.hook s.nextId)) := by
  refine ⟨?_, ?_, ?_, ?_⟩
  · intro ops s0 hc himp
    refine (HookInv_runOps ops s0 ⟨by omega, fun e he hh => ?_⟩).1
    rw [countHooks_eq_zero] at hc
    rw [hc e he] at hh
    exact Bool.noConfusion hh
  · intro s
    obtain ⟨mp, imp, nid⟩ := s
    cases imp <;> rfl
  · intro s h
    obtain ⟨mp, imp, nid⟩ := s
    cases imp with
    | none => rfl
    | some i => exact Option.noConfusion h
  · intro s
    rfl

theorem install_uninstall_at_most_one_witness :
    countHooks (runOps [.installOp, .installOp, .uninstallOp, .uninstallOp]
        ⟨[.foreign 7], none, 0⟩).metaPath ≤ 1
    ∧ ProjectImporter.uninstall (ProjectImporter.uninstall ⟨[.hook 0], some 0, 1⟩) =
        ProjectImporter.uninstall ⟨[.hook 0], some 0, 1⟩
    ∧ ProjectImporter.uninstall ⟨[.foreign 7], none, 3⟩ = ⟨[.foreign 7], none, 3⟩
    ∧ (ProjectImporter.install ⟨[.foreign 7], none, 5⟩).metaPath.head? = some (.hook 5) :=
  ⟨install_uninstall_at_most_one.1 [.installOp, .installOp, .uninstallOp, .uninstallOp]
      ⟨[.foreign 7], none, 0⟩ rfl rfl,
   install_uninstall_at_most_one.2.1 ⟨[.hook 0], some 0, 1⟩,
   install_uninstall_at_most_one.2.2.1 ⟨[.foreign 7], none, 3⟩ rfl,
   install_uninstall_at_most_one.2.2.2 ⟨[.foreign 7], none, 5⟩⟩

end MaturinImportHook
